import Mathlib

/-!
Shallow embedding of the `sdk_pulse` benchmark harness (`src/main.rs`).

The program orchestrates three timed Lightning payment scenarios through an
external SDK.  Every SDK call is modelled by an explicit environment field
holding that call's outcome; time is an explicit monotonic clock counted in
nanoseconds, and `Duration.as_secs` is truncating division, as in Rust.
Each embedded function also emits a trace of the externally visible steps it
performs, so that ordering properties (timer start, calls made, CSV writes)
can be stated.
-/

namespace SdkPulse

instance {ε α : Type} [DecidableEq ε] [DecidableEq α] : DecidableEq (Except ε α) := fun a b =>
  match a, b with
  | Except.ok x, Except.ok y =>
      if h : x = y then isTrue (by rw [h]) else isFalse (by simp [h])
  | Except.error x, Except.error y =>
      if h : x = y then isTrue (by rw [h]) else isFalse (by simp [h])
  | Except.ok _, Except.error _ => isFalse (by simp)
  | Except.error _, Except.ok _ => isFalse (by simp)

/-- Nanoseconds per second; `std::time::Duration` stores seconds + nanos and
`as_secs` truncates toward zero. -/
def NANOS_PER_SEC : Nat := 1000000000

/-- A `std::time::Duration`, as a nanosecond count. -/
structure Duration where
  nanos : Nat
deriving DecidableEq

/-- `Duration::as_secs`: whole seconds, truncated toward zero. -/
def Duration.as_secs (d : Duration) : Nat :=
  d.nanos / NANOS_PER_SEC

/-- `test_ok` (src/main.rs:144): result tuple for a successful test.  The
Rust code reads `Instant::now()` and subtracts `ts_start`; here both instants
are explicit clock values in nanoseconds. -/
def test_ok (ts_start now : Nat) : Option Nat × String :=
  (some (Duration.as_secs ⟨now - ts_start⟩), "Ok")

/-- `test_err` (src/main.rs:152): result tuple for a failed test (the log
line has no semantic effect). -/
def test_err (err : String) : Option Nat × String :=
  (none, err)

/-- `breez_sdk_core::LnUrlPayRequestData`, opaque payload of a parsed
LNURL-pay descriptor. -/
structure LnUrlPayData where
  callback : String
deriving DecidableEq

/-- Outcome of `parse(ln_address).await`, split exactly along the arms the
source matches on: `Ok(InputType::LnUrlPay)`, `Ok(InputType::LnUrlError)`,
any other `Ok(_)` input type, or `Err(_)`. -/
inductive ParseOutcome where
  | lnUrlPay (data : LnUrlPayData)
  | lnUrlError (reason : String)
  | otherInput
  | parseFailure (e : String)
deriving DecidableEq

/-- `breez_sdk_core::LnUrlPayResult`, reduced to the reason strings the
source extracts from each variant. -/
inductive LnUrlPayResult where
  | endpointSuccess
  | endpointError (reason : String)
  | payError (reason : String)
deriving DecidableEq

/-- `breez_sdk_core::LNInvoice`, reduced to the field the source reads. -/
structure LNInvoice where
  bolt11 : String
deriving DecidableEq

/-- `breez_sdk_core::ReceivePaymentResponse`, reduced to the field the
source reads. -/
structure ReceivePaymentResponse where
  ln_invoice : LNInvoice
deriving DecidableEq

/-- Externally visible events of one scenario run. -/
inductive Event where
  | parseCall (input : String)
  | timerStart (t : Nat)
  | lnurlPayCall (amount_msat : Nat) (comment : Option String)
  | receivePaymentCall (amount_msat : Nat) (description : String) (expiry : Option Nat)
  | sendPaymentCall (bolt11 : String) (amount_msat : Option Nat)
deriving DecidableEq

def Event.isTimerStart : Event → Bool
  | .timerStart _ => true
  | _ => false

def Event.isLnurlPayCall : Event → Bool
  | .lnurlPayCall _ _ => true
  | _ => false

/-- Result of running one scenario: the `(Option<u64>, String)` pair the Rust
function returns, the event trace, and the clock after the run. -/
structure ScenarioOut where
  result : Option Nat × String
  trace : List Event
  clock : Nat
deriving DecidableEq

/-- Environment for one `pay_gl_2_ln_address` call: the outcome of the
`parse` call, the outcome of the `lnurl_pay` call, and how long each network
call takes (nanoseconds). -/
structure LnAddrEnv where
  parseDelay : Nat
  parseResult : ParseOutcome
  payDelay : Nat
  payResult : Except String LnUrlPayResult
deriving DecidableEq

/-- `pay_gl_2_ln_address` (src/main.rs:157).  `clock` is the value of the
monotonic clock when the function is entered; the `parse` call consumes
`parseDelay`, then on the payable arm `Instant::now()` is read and the
`lnurl_pay` call consumes `payDelay`. -/
def pay_gl_2_ln_address (env : LnAddrEnv) (ln_address : String) (clock : Nat) : ScenarioOut :=
  let clock1 := clock + env.parseDelay
  match env.parseResult with
  | ParseOutcome.lnUrlPay _data =>
      let ts_start := clock1
      let clock2 := clock1 + env.payDelay
      let tr := [Event.parseCall ln_address, Event.timerStart ts_start,
                 Event.lnurlPayCall 1000 (some "test-gl2lnurl")]
      match env.payResult with
      | Except.ok LnUrlPayResult.endpointSuccess =>
          ⟨test_ok ts_start clock2, tr, clock2⟩
      | Except.ok (LnUrlPayResult.endpointError reason) =>
          ⟨test_err reason, tr, clock2⟩
      | Except.ok (LnUrlPayResult.payError reason) =>
          ⟨test_err reason, tr, clock2⟩
      | Except.error e =>
          ⟨test_err e, tr, clock2⟩
  | ParseOutcome.lnUrlError reason =>
      ⟨test_err ("LNURL error: " ++ reason), [Event.parseCall ln_address], clock1⟩
  | ParseOutcome.otherInput =>
      ⟨test_err "Failed to parse LN Address", [Event.parseCall ln_address], clock1⟩
  | ParseOutcome.parseFailure _ =>
      ⟨test_err "Failed to parse LN Address", [Event.parseCall ln_address], clock1⟩

/-- Environment for one `pay_gl_2_gl` call: the outcome of the receiver's
`receive_payment` call, the outcome of the sender's `send_payment` call, and
the duration of each (nanoseconds). -/
structure GlEnv where
  recvDelay : Nat
  recvResult : Except String ReceivePaymentResponse
  payDelay : Nat
  payResult : Except String Unit
deriving DecidableEq

/-- `pay_gl_2_gl` (src/main.rs:187): receiver creates an invoice
(amount 1000 msat, description "test-gl2gl", expiry 60); only if that
succeeds is `Instant::now()` read, after which the sender pays the invoice's
bolt11. -/
def pay_gl_2_gl (env : GlEnv) (clock : Nat) : ScenarioOut :=
  let clock1 := clock + env.recvDelay
  match env.recvResult with
  | Except.ok recv_payment =>
      let ts_start := clock1
      let clock2 := clock1 + env.payDelay
      let tr := [Event.receivePaymentCall 1000 "test-gl2gl" (some 60),
                 Event.timerStart ts_start,
                 Event.sendPaymentCall recv_payment.ln_invoice.bolt11 none]
      match env.payResult with
      | Except.ok _ => ⟨test_ok ts_start clock2, tr, clock2⟩
      | Except.error e =>
          ⟨test_err ("[sdk-tx] Failed to send payment: " ++ e), tr, clock2⟩
  | Except.error e =>
      ⟨test_err ("[sdk-rx] Failed to create invoice: " ++ e),
       [Event.receivePaymentCall 1000 "test-gl2gl" (some 60)], clock1⟩

/-- `bip39::Language`; the source only ever passes `Language::English`. -/
inductive Language where
  | english
  | simplifiedChinese
  | traditionalChinese
  | czech
  | french
  | italian
  | japanese
  | korean
  | portuguese
  | spanish
deriving DecidableEq

/-- `bip39::Mnemonic`, as its word list. -/
structure Mnemonic where
  words : List String
deriving DecidableEq

/-- A connected `BreezServices` handle (opaque). -/
structure Sdk where
  node_id : Nat
deriving DecidableEq

/-- Environment for one `get_sdk` call: outcomes of the bip39 operations,
the directory creation, and the SDK connect call. -/
structure SdkEnv where
  generate_in : Language → Nat → Except String Mnemonic
  from_str : String → Except String Mnemonic
  to_seed : Mnemonic → String → List Nat
  create_dir_all : String → Except String Unit
  connect : List Nat → Except String Sdk

/-- Externally visible steps of `get_sdk`. -/
inductive GStep where
  | generateCall (lang : Language) (word_count : Nat)
  | printMnemonic (m : Mnemonic)
  | deriveSeed (m : Mnemonic) (passphrase : String)
  | buildConfig (env_type api_key working_dir : String) (invite_code : Option String)
  | createDirCall (working_dir : String)
  | connectCall (seed : List Nat)
deriving DecidableEq

/-- Result of `get_sdk`: step trace plus `Result<Arc<BreezServices>>`. -/
structure GetSdkOut where
  trace : List GStep
  result : Except String Sdk
deriving DecidableEq

/-- Tail of `get_sdk` after `mnemonic_obj` is available
(src/main.rs:39-66): derive the seed with empty passphrase, build the
production config, create the working dir, connect. -/
def get_sdk_rest (env : SdkEnv) (breez_sdk_api_key working_dir : String)
    (invite_code : Option String) (tr0 : List GStep) (mnemonic_obj : Mnemonic) : GetSdkOut :=
  let seed := env.to_seed mnemonic_obj ""
  let tr1 := tr0 ++ [GStep.deriveSeed mnemonic_obj "",
                     GStep.buildConfig "Production" breez_sdk_api_key working_dir invite_code,
                     GStep.createDirCall working_dir]
  match env.create_dir_all working_dir with
  | Except.error e => ⟨tr1, Except.error e⟩
  | Except.ok _ =>
      match env.connect seed with
      | Except.error e => ⟨tr1 ++ [GStep.connectCall seed], Except.error e⟩
      | Except.ok sdk => ⟨tr1 ++ [GStep.connectCall seed], Except.ok sdk⟩

/-- `get_sdk` (src/main.rs:24): with no mnemonic, generate a fresh 12-word
English phrase and print it; with a supplied mnemonic, parse it with
`Mnemonic::from_str`, failing fast on a malformed phrase. -/
def get_sdk (env : SdkEnv) (breez_sdk_api_key working_dir : String)
    (invite_code : Option String) (mnemonic : Option String) : GetSdkOut :=
  match mnemonic with
  | none =>
      match env.generate_in Language.english 12 with
      | Except.error e => ⟨[GStep.generateCall Language.english 12], Except.error e⟩
      | Except.ok m =>
          get_sdk_rest env breez_sdk_api_key working_dir invite_code
            [GStep.generateCall Language.english 12, GStep.printMnemonic m] m
  | some mnemonic_str =>
      match env.from_str mnemonic_str with
      | Except.error e => ⟨[], Except.error e⟩
      | Except.ok m => get_sdk_rest env breez_sdk_api_key working_dir invite_code [] m

/-- `PulseConfig` (src/main.rs:70), as extracted from `pulse-config.toml`. -/
structure PulseConfig where
  breez_api_key : String
  sdk_1_mnemonic : String
  sdk_2_mnemonic : String
  iterations_csv_full_path : String
  iterations_logs_dir_path : String
  ln_address_wos : String
  ln_address_tor_node : String
deriving DecidableEq

/-- The per-run log directory path `{iterations_logs_dir_path}/sdk-log-{start_ts}`. -/
def logDirPath (config : PulseConfig) (start_ts : Nat) : String :=
  config.iterations_logs_dir_path ++ "/sdk-log-" ++ toString start_ts

/-- Externally visible steps of `main`, in source order.  `sync` is the
vocabulary for an explicit node-synchronisation call; `main` never emits it. -/
inductive MainStep where
  | loadConfig
  | createLogDir (path : String)
  | initLogging (path : String)
  | connectSdk1
  | nodeInfo1
  | connectSdk2
  | nodeInfo2
  | sync
  | runGl2Wos
  | runGl2Gl
  | runGl2Tor
  | disconnect1
  | disconnect2
  | openCsv (path : String) (append create : Bool)
  | writeRecord (row : List String)
  | flushCsv
deriving DecidableEq

/-- Environment for one `main` run: the Unix start timestamp, the initial
monotonic clock, and the outcome of every fallible external operation in
source order. -/
structure MainEnv where
  startTs : Nat
  clock0 : Nat
  configLoad : Except String PulseConfig
  createLogDir : Except String Unit
  initLogging : Except String Unit
  sdk1 : SdkEnv
  sdk2 : SdkEnv
  nodeInfo1 : Except String Unit
  nodeInfo2 : Except String Unit
  gl2wos : LnAddrEnv
  gl2gl : GlEnv
  gl2tor : LnAddrEnv
  disconnect1 : Except String Unit
  disconnect2 : Except String Unit
  openCsv : Except String Unit
  writeRecord : Except String Unit
  flushCsv : Except String Unit

/-- Result of a `main` run: the step trace and `Result<()>`. -/
structure MainOut where
  trace : List MainStep
  outcome : Except String Unit
deriving DecidableEq

/-- Sequencing of one fallible step of `main`: the step is recorded as
attempted; on `Err` the `?` operator aborts with that error, otherwise the
continuation runs. -/
def bindStep {α : Type} (tr : List MainStep) (s : MainStep) (x : Except String α)
    (k : α → List MainStep → MainOut) : MainOut :=
  match x with
  | Except.error e => ⟨tr ++ [s], Except.error e⟩
  | Except.ok a => k a (tr ++ [s])

/-- `Option::map(u64::to_string).unwrap_or_default()`: CSV rendering of an
elapsed field (src/main.rs:131-136). -/
def optToField (o : Option Nat) : String :=
  match o with
  | some d => toString d
  | none => ""

/-- The record `main` passes to `write_record` (src/main.rs:130). -/
def mainRow (start_ts : Nat) (gl2wos_res gl2gl_res gl2tor_res : Option Nat × String) :
    List String :=
  [toString start_ts,
   optToField gl2wos_res.1, gl2wos_res.2,
   optToField gl2gl_res.1, gl2gl_res.2,
   optToField gl2tor_res.1, gl2tor_res.2]

/-- `main` (src/main.rs:85): load config, create the log dir, init logging,
connect both SDKs (logging node info for each), run the three scenarios,
disconnect both SDKs, then open the CSV in append-or-create mode, write the
row and flush.  Every `?` in the source is a `bindStep`. -/
def runMain (env : MainEnv) : MainOut :=
  bindStep [] MainStep.loadConfig env.configLoad fun config tr =>
  bindStep tr (MainStep.createLogDir (logDirPath config env.startTs)) env.createLogDir fun _ tr =>
  bindStep tr (MainStep.initLogging (logDirPath config env.startTs)) env.initLogging fun _ tr =>
  bindStep tr MainStep.connectSdk1
    (get_sdk env.sdk1 config.breez_api_key "working-dir-sdk-1" none
      (some config.sdk_1_mnemonic)).result fun _sdk_1 tr =>
  bindStep tr MainStep.nodeInfo1 env.nodeInfo1 fun _ tr =>
  bindStep tr MainStep.connectSdk2
    (get_sdk env.sdk2 config.breez_api_key "working-dir-sdk-2" none
      (some config.sdk_2_mnemonic)).result fun _sdk_2 tr =>
  bindStep tr MainStep.nodeInfo2 env.nodeInfo2 fun _ tr =>
  let gl2wos_res := pay_gl_2_ln_address env.gl2wos config.ln_address_wos env.clock0
  let gl2gl_res := pay_gl_2_gl env.gl2gl gl2wos_res.clock
  let gl2tor_res := pay_gl_2_ln_address env.gl2tor config.ln_address_tor_node gl2gl_res.clock
  let tr2 := tr ++ [MainStep.runGl2Wos, MainStep.runGl2Gl, MainStep.runGl2Tor]
  bindStep tr2 MainStep.disconnect1 env.disconnect1 fun _ tr =>
  bindStep tr MainStep.disconnect2 env.disconnect2 fun _ tr =>
  bindStep tr (MainStep.openCsv config.iterations_csv_full_path true true) env.openCsv fun _ tr =>
  bindStep tr (MainStep.writeRecord
      (mainRow env.startTs gl2wos_res.result gl2gl_res.result gl2tor_res.result))
    env.writeRecord fun _ tr =>
  bindStep tr MainStep.flushCsv env.flushCsv fun _ tr =>
  ⟨tr, Except.ok ()⟩

/-- The state of the CSV file: durable rows on disk plus the rows buffered
in the `csv::Writer` that become durable only on flush. -/
structure CsvFile where
  rows : List (List String)
  buffered : List (List String)
deriving DecidableEq

/-- File-system semantics of one `main` step: opening without append
truncates, a written record is buffered, flush makes the buffer durable. -/
def csvStep (f : CsvFile) (s : MainStep) : CsvFile :=
  match s with
  | MainStep.openCsv _ append _ => if append then f else ⟨[], f.buffered⟩
  | MainStep.writeRecord r => ⟨f.rows, f.buffered ++ [r]⟩
  | MainStep.flushCsv => ⟨f.rows ++ f.buffered, []⟩
  | _ => f

/-- Run the CSV semantics over a whole trace. -/
def csvRun (f : CsvFile) (tr : List MainStep) : CsvFile :=
  tr.foldl csvStep f

/-- The rows `main` handed to `write_record` along a trace. -/
def writtenRows (tr : List MainStep) : List (List String) :=
  tr.filterMap fun s =>
    match s with
    | MainStep.writeRecord r => some r
    | _ => none

/-- All non-scenario steps up to and including connecting/inspecting both
nodes succeeded (so `main` reaches the scenarios). -/
def setupOk (env : MainEnv) (config : PulseConfig) : Prop :=
  env.configLoad = Except.ok config ∧
  env.createLogDir = Except.ok () ∧
  env.initLogging = Except.ok () ∧
  (∃ s, (get_sdk env.sdk1 config.breez_api_key "working-dir-sdk-1" none
          (some config.sdk_1_mnemonic)).result = Except.ok s) ∧
  env.nodeInfo1 = Except.ok () ∧
  (∃ s, (get_sdk env.sdk2 config.breez_api_key "working-dir-sdk-2" none
          (some config.sdk_2_mnemonic)).result = Except.ok s) ∧
  env.nodeInfo2 = Except.ok ()

/-- Every fatal (process-aborting) operation of the run succeeded; the three
scenario outcomes remain arbitrary. -/
def fatalsOk (env : MainEnv) (config : PulseConfig) : Prop :=
  setupOk env config ∧
  env.disconnect1 = Except.ok () ∧
  env.disconnect2 = Except.ok () ∧
  env.openCsv = Except.ok () ∧
  env.writeRecord = Except.ok () ∧
  env.flushCsv = Except.ok ()

/-- The three scenario runs of `main`, in order, with the clock threaded
through. -/
def scenarioTriple (env : MainEnv) (config : PulseConfig) :
    ScenarioOut × ScenarioOut × ScenarioOut :=
  let gl2wos_res := pay_gl_2_ln_address env.gl2wos config.ln_address_wos env.clock0
  let gl2gl_res := pay_gl_2_gl env.gl2gl gl2wos_res.clock
  let gl2tor_res := pay_gl_2_ln_address env.gl2tor config.ln_address_tor_node gl2gl_res.clock
  (gl2wos_res, gl2gl_res, gl2tor_res)

/-- The full trace of a run on which no fatal operation failed. -/
def happyTrace (env : MainEnv) (config : PulseConfig) : List MainStep :=
  let t := scenarioTriple env config
  [MainStep.loadConfig,
   MainStep.createLogDir (logDirPath config env.startTs),
   MainStep.initLogging (logDirPath config env.startTs),
   MainStep.connectSdk1, MainStep.nodeInfo1,
   MainStep.connectSdk2, MainStep.nodeInfo2,
   MainStep.runGl2Wos, MainStep.runGl2Gl, MainStep.runGl2Tor,
   MainStep.disconnect1, MainStep.disconnect2,
   MainStep.openCsv config.iterations_csv_full_path true true,
   MainStep.writeRecord (mainRow env.startTs t.1.result t.2.1.result t.2.2.result),
   MainStep.flushCsv]

theorem runMain_happy (env : MainEnv) (config : PulseConfig) (h : fatalsOk env config) :
    runMain env = ⟨happyTrace env config, Except.ok ()⟩ := by
  obtain ⟨⟨h1, h2, h3, ⟨s1, hs1⟩, h4, ⟨s2, hs2⟩, h5⟩, hd1, hd2, ho, hw, hf⟩ := h
  simp only [runMain, bindStep, h1, h2, h3, hs1, h4, hs2, h5, hd1, hd2, ho, hw, hf,
    happyTrace, scenarioTriple]
  simp

theorem string_append_ne_empty (s t : String) (h : s ≠ "") : s ++ t ≠ "" := by
  intro he
  apply h
  have hd : s.data ++ t.data = ([] : List Char) := congrArg String.data he
  obtain ⟨hs, -⟩ := List.append_eq_nil.mp hd
  exact String.ext (hs.trans rfl)

theorem bindStep_noSync {α : Type} {tr : List MainStep} {s : MainStep}
    {x : Except String α} {k : α → List MainStep → MainOut}
    (hs : s ≠ MainStep.sync) (htr : MainStep.sync ∉ tr)
    (hk : ∀ a tr', MainStep.sync ∉ tr' → MainStep.sync ∉ (k a tr').trace) :
    MainStep.sync ∉ (bindStep tr s x k).trace := by
  have hmem : MainStep.sync ∉ tr ++ [s] := by
    simp only [List.mem_append, List.mem_singleton]
    rintro (h | h)
    · exact htr h
    · exact hs h.symm
  cases x with
  | error e => exact hmem
  | ok a => exact hk a (tr ++ [s]) hmem

theorem runMain_noSync (env : MainEnv) : MainStep.sync ∉ (runMain env).trace := by
  unfold runMain
  refine bindStep_noSync (by simp) (by simp) ?_
  intro config tr htr
  refine bindStep_noSync (by simp) htr ?_
  intro _ tr htr
  refine bindStep_noSync (by simp) htr ?_
  intro _ tr htr
  refine bindStep_noSync (by simp) htr ?_
  intro _ tr htr
  refine bindStep_noSync (by simp) htr ?_
  intro _ tr htr
  refine bindStep_noSync (by simp) htr ?_
  intro _ tr htr
  refine bindStep_noSync (by simp) htr ?_
  intro _ tr htr
  refine bindStep_noSync (by simp) (by simp [htr]) ?_
  intro _ tr htr
  refine bindStep_noSync (by simp) htr ?_
  intro _ tr htr
  refine bindStep_noSync (by simp) htr ?_
  intro _ tr htr
  refine bindStep_noSync (by simp) htr ?_
  intro _ tr htr
  refine bindStep_noSync (by simp) htr ?_
  intro _ tr htr
  exact htr

/-! Concrete demonstration environments, used to instantiate the theorems
below on closed inputs. -/

def demoConfig : PulseConfig :=
  { breez_api_key := "demo-api-key"
    sdk_1_mnemonic := "abandon-x12"
    sdk_2_mnemonic := "ability-x12"
    iterations_csv_full_path := "pulse.csv"
    iterations_logs_dir_path := "logs"
    ln_address_wos := "user@wos.example"
    ln_address_tor_node := "user@tor.example" }

def demoMnemonic : Mnemonic :=
  ⟨["w01", "w02", "w03", "w04", "w05", "w06",
    "w07", "w08", "w09", "w10", "w11", "w12"]⟩

def demoSdkEnv : SdkEnv :=
  { generate_in := fun _ _ => Except.ok demoMnemonic
    from_str := fun s => Except.ok ⟨[s]⟩
    to_seed := fun _ _ => [0, 1]
    create_dir_all := fun _ => Except.ok ()
    connect := fun _ => Except.ok ⟨7⟩ }

/-- Address scenario whose parse yields a non-payable input type. -/
def demoWosEnv : LnAddrEnv :=
  ⟨0, ParseOutcome.otherInput, 0, Except.ok LnUrlPayResult.endpointSuccess⟩

/-- Node-to-node scenario: invoice creation takes 2 s, paying takes 3 s. -/
def demoGlEnv : GlEnv :=
  ⟨2000000000, Except.ok ⟨⟨"lnbc-demo"⟩⟩, 3000000000, Except.ok ()⟩

/-- Address scenario that parses and succeeds in half a second. -/
def demoTorEnv : LnAddrEnv :=
  ⟨0, ParseOutcome.lnUrlPay ⟨"callback"⟩, 500000000, Except.ok LnUrlPayResult.endpointSuccess⟩

def demoEnv : MainEnv :=
  { startTs := 100
    clock0 := 0
    configLoad := Except.ok demoConfig
    createLogDir := Except.ok ()
    initLogging := Except.ok ()
    sdk1 := demoSdkEnv
    sdk2 := demoSdkEnv
    nodeInfo1 := Except.ok ()
    nodeInfo2 := Except.ok ()
    gl2wos := demoWosEnv
    gl2gl := demoGlEnv
    gl2tor := demoTorEnv
    disconnect1 := Except.ok ()
    disconnect2 := Except.ok ()
    openCsv := Except.ok ()
    writeRecord := Except.ok ()
    flushCsv := Except.ok () }

theorem demoEnv_setupOk : setupOk demoEnv demoConfig :=
  ⟨rfl, rfl, rfl, ⟨⟨7⟩, rfl⟩, rfl, ⟨⟨7⟩, rfl⟩, rfl⟩

theorem demoEnv_fatalsOk : fatalsOk demoEnv demoConfig :=
  ⟨demoEnv_setupOk, rfl, rfl, rfl, rfl, rfl⟩

/-- Node-to-node scenario whose invoice creation fails. -/
def demoGlErrEnv : GlEnv :=
  ⟨0, Except.error "connection refused", 0, Except.ok ()⟩

/-- A scenario result in the success shape: a present elapsed value paired
with status string "Ok". -/
def successShape (r : Option Nat × String) : Prop :=
  r.1.isSome = true ∧ r.2 = "Ok"

/-- A scenario result in the failure shape: an absent elapsed value. -/
def failureShape (r : Option Nat × String) : Prop :=
  r.1 = none

/-- All strings the address scenario would pass through verbatim as a
failure message are non-empty. -/
def lnAddrMessagesNonempty (env : LnAddrEnv) : Bool :=
  match env.payResult with
  | Except.ok LnUrlPayResult.endpointSuccess => true
  | Except.ok (LnUrlPayResult.endpointError reason) => reason != ""
  | Except.ok (LnUrlPayResult.payError reason) => reason != ""
  | Except.error e => e != ""

theorem lnaddr_shape (env : LnAddrEnv) (addr : String) (c : Nat) :
    Xor' (successShape (pay_gl_2_ln_address env addr c).result)
         (failureShape (pay_gl_2_ln_address env addr c).result) := by
  rcases env with ⟨pd, pr, yd, py⟩
  cases pr with
  | lnUrlPay data =>
    cases py with
    | ok r =>
      cases r <;>
        simp [pay_gl_2_ln_address, test_ok, test_err, successShape, failureShape, Xor']
    | error e =>
      simp [pay_gl_2_ln_address, test_err, successShape, failureShape, Xor']
  | lnUrlError r =>
    simp [pay_gl_2_ln_address, test_err, successShape, failureShape, Xor']
  | otherInput =>
    simp [pay_gl_2_ln_address, test_err, successShape, failureShape, Xor']
  | parseFailure e =>
    simp [pay_gl_2_ln_address, test_err, successShape, failureShape, Xor']

theorem gl_shape (env : GlEnv) (c : Nat) :
    Xor' (successShape (pay_gl_2_gl env c).result)
         (failureShape (pay_gl_2_gl env c).result) := by
  rcases env with ⟨rd, rr, yd, yr⟩
  cases rr with
  | ok recv =>
    cases yr with
    | ok u => simp [pay_gl_2_gl, test_ok, successShape, failureShape, Xor']
    | error e => simp [pay_gl_2_gl, test_err, successShape, failureShape, Xor']
  | error e => simp [pay_gl_2_gl, test_err, successShape, failureShape, Xor']

theorem gl_failure_msg (env : GlEnv) (c : Nat) :
    failureShape (pay_gl_2_gl env c).result → (pay_gl_2_gl env c).result.2 ≠ "" := by
  rcases env with ⟨rd, rr, yd, yr⟩
  cases rr with
  | ok recv =>
    cases yr with
    | ok u => simp [pay_gl_2_gl, test_ok, failureShape]
    | error e =>
      intro _
      show "[sdk-tx] Failed to send payment: " ++ e ≠ ""
      exact string_append_ne_empty _ _ (by decide)
  | error e =>
    intro _
    show "[sdk-rx] Failed to create invoice: " ++ e ≠ ""
    exact string_append_ne_empty _ _ (by decide)

theorem lnaddr_failure_msg (env : LnAddrEnv) (addr : String) (c : Nat)
    (hne : lnAddrMessagesNonempty env = true)
    (hf : failureShape (pay_gl_2_ln_address env addr c).result) :
    (pay_gl_2_ln_address env addr c).result.2 ≠ "" := by
  rcases env with ⟨pd, pr, yd, py⟩
  cases pr with
  | lnUrlPay data =>
    cases py with
    | ok r =>
      cases r with
      | endpointSuccess => simp [pay_gl_2_ln_address, test_ok, failureShape] at hf
      | endpointError reason => exact bne_iff_ne.mp hne
      | payError reason => exact bne_iff_ne.mp hne
    | error e => exact bne_iff_ne.mp hne
  | lnUrlError reason =>
    show "LNURL error: " ++ reason ≠ ""
    exact string_append_ne_empty _ _ (by decide)
  | otherInput => exact (by decide : ("Failed to parse LN Address" : String) ≠ "")
  | parseFailure e => exact (by decide : ("Failed to parse LN Address" : String) ≠ "")

/-- C1 counterexample: when the LNURL endpoint reports an error whose reason
string is empty, the address scenario produces the outcome `(None, "")` — a
failure whose message is empty, so the claimed "absent elapsed value with a
non-empty message" shape does not cover all outcomes. -/
theorem c1_counterexample :
    (pay_gl_2_ln_address
        ⟨0, ParseOutcome.lnUrlPay ⟨"cb"⟩, 0, Except.ok (LnUrlPayResult.endpointError "")⟩
        "user@wos.example" 0).result = (none, "") := rfl

/-- C1 (amended): every result of `pay_gl_2_ln_address` and `pay_gl_2_gl`
satisfies exactly one of the two shapes — a present elapsed value paired
with status "Ok", or an absent elapsed value paired with the error message.
The failure message is always non-empty in the node-to-node scenario, and is
non-empty in the address scenario whenever the reason/error strings the code
passes through verbatim are themselves non-empty. -/
theorem c1_result_shapes (envA : LnAddrEnv) (addr : String) (envG : GlEnv) (ca cg : Nat) :
    Xor' (successShape (pay_gl_2_ln_address envA addr ca).result)
         (failureShape (pay_gl_2_ln_address envA addr ca).result) ∧
    Xor' (successShape (pay_gl_2_gl envG cg).result)
         (failureShape (pay_gl_2_gl envG cg).result) ∧
    (failureShape (pay_gl_2_gl envG cg).result → (pay_gl_2_gl envG cg).result.2 ≠ "") ∧
    (lnAddrMessagesNonempty envA = true →
      failureShape (pay_gl_2_ln_address envA addr ca).result →
      (pay_gl_2_ln_address envA addr ca).result.2 ≠ "") :=
  ⟨lnaddr_shape envA addr ca, gl_shape envG cg, gl_failure_msg envG cg,
   lnaddr_failure_msg envA addr ca⟩

/-- C1 witness: the amended shape statement instantiated on a successful
address scenario and on a node-to-node run whose invoice creation failed. -/
theorem c1_result_shapes_witness :
    Xor' (successShape (pay_gl_2_ln_address demoTorEnv "user@tor.example" 0).result)
         (failureShape (pay_gl_2_ln_address demoTorEnv "user@tor.example" 0).result) ∧
    (pay_gl_2_gl demoGlErrEnv 0).result.2 ≠ "" := by
  refine ⟨(c1_result_shapes demoTorEnv "user@tor.example" demoGlErrEnv 0 0).1, ?_⟩
  exact (c1_result_shapes demoTorEnv "user@tor.example" demoGlErrEnv 0 0).2.2.1 rfl

/-- C2: in `pay_gl_2_gl` the timer starts only after invoice creation
succeeds — on a successful run the reported elapsed time is exactly the pay
step's duration (in truncated seconds), and is unchanged by any
invoice-creation delay; when invoice creation fails, no timer-start event
occurs and the result is a failure carrying the SDK error. -/
theorem c2_timer_excludes_invoice_creation (env : GlEnv) (clock : Nat) :
    (∀ recv, env.recvResult = Except.ok recv → env.payResult = Except.ok () →
      (pay_gl_2_gl env clock).result = (some (Duration.as_secs ⟨env.payDelay⟩), "Ok") ∧
      (∀ d1, (pay_gl_2_gl { env with recvDelay := d1 } clock).result =
             (pay_gl_2_gl env clock).result) ∧
      (∀ secs, env.payDelay = secs * NANOS_PER_SEC →
        (pay_gl_2_gl env clock).result = (some secs, "Ok"))) ∧
    (∀ e, env.recvResult = Except.error e →
      ((pay_gl_2_gl env clock).trace.all fun ev => !ev.isTimerStart) = true ∧
      (pay_gl_2_gl env clock).result = (none, "[sdk-rx] Failed to create invoice: " ++ e)) := by
  constructor
  · intro recv h1 h2
    have base : (pay_gl_2_gl env clock).result
        = (some (Duration.as_secs ⟨env.payDelay⟩), "Ok") := by
      simp [pay_gl_2_gl, h1, h2, test_ok, Nat.add_sub_cancel_left]
    refine ⟨base, ?_, ?_⟩
    · intro d1
      rw [base]
      simp [pay_gl_2_gl, h1, h2, test_ok, Nat.add_sub_cancel_left]
    · intro secs hsecs
      rw [base, hsecs]
      simp [Duration.as_secs, Nat.mul_div_cancel _ (by decide : 0 < NANOS_PER_SEC)]
  · intro e h1
    constructor
    · simp [pay_gl_2_gl, h1, Event.isTimerStart]
    · simp [pay_gl_2_gl, h1, test_err]

/-- C2 witness: invoice creation takes 2 s and paying takes 3 s; the
reported elapsed time is 3 s, and changing the invoice-creation delay does
not change the result. -/
theorem c2_timer_witness :
    (pay_gl_2_gl demoGlEnv 0).result = (some 3, "Ok") ∧
    (pay_gl_2_gl { demoGlEnv with recvDelay := 77 } 0).result
      = (pay_gl_2_gl demoGlEnv 0).result := by
  have h := (c2_timer_excludes_invoice_creation demoGlEnv 0).1 ⟨⟨"lnbc-demo"⟩⟩ rfl rfl
  exact ⟨h.2.2 3 (by decide), h.2.1 77⟩

/-- C9: the elapsed value of a successful scenario is the measured duration
truncated toward zero to whole seconds (`Duration::as_secs`): a payment
completing in strictly less than one second is recorded as `Some 0` with
status "Ok", and the CSV renders a present elapsed value as the integer's
decimal string, never with a fractional part. -/
theorem c9_elapsed_truncation :
    (∀ ts_start now, test_ok ts_start now =
      (some ((now - ts_start) / NANOS_PER_SEC), "Ok")) ∧
    (∀ ts_start now, now - ts_start < NANOS_PER_SEC →
      test_ok ts_start now = (some 0, "Ok")) ∧
    (∀ (env : GlEnv) (clock : Nat) (recv : ReceivePaymentResponse),
      env.recvResult = Except.ok recv → env.payResult = Except.ok () →
      env.payDelay < NANOS_PER_SEC →
      (pay_gl_2_gl env clock).result = (some 0, "Ok")) ∧
    (∀ n, optToField (some n) = toString n) := by
  refine ⟨fun a b => rfl, ?_, ?_, fun n => rfl⟩
  · intro a b h
    simp [test_ok, Duration.as_secs, Nat.div_eq_of_lt h]
  · intro env clock recv h1 h2 h3
    simp [pay_gl_2_gl, h1, h2, test_ok, Duration.as_secs, Nat.add_sub_cancel_left,
      Nat.div_eq_of_lt h3]

/-- C9 witness: a payment that takes 999999999 ns is recorded as
`Some 0` with status "Ok". -/
theorem c9_elapsed_witness : test_ok 0 999999999 = (some 0, "Ok") :=
  c9_elapsed_truncation.2.1 0 999999999 (by decide)

/-- C4: in `pay_gl_2_ln_address`, any parse outcome that is not a payable
LNURL-pay descriptor returns a failure immediately — the trace is exactly
the parse call, with no timer start and no `lnurl_pay` invocation; an
unrelated input type or a parse error yields
`(None, "Failed to parse LN Address")`, an explicit LNURL error yields
`(None, "LNURL error: " ++ reason)`; the function returns a value in every
case, it never aborts. -/
theorem c4_parse_failure_no_timer (env : LnAddrEnv) (addr : String) (clock : Nat) :
    ((env.parseResult = ParseOutcome.otherInput ∨
      (∃ e, env.parseResult = ParseOutcome.parseFailure e)) →
      (pay_gl_2_ln_address env addr clock).result = (none, "Failed to parse LN Address") ∧
      (pay_gl_2_ln_address env addr clock).trace = [Event.parseCall addr]) ∧
    (∀ reason, env.parseResult = ParseOutcome.lnUrlError reason →
      (pay_gl_2_ln_address env addr clock).result = (none, "LNURL error: " ++ reason) ∧
      (pay_gl_2_ln_address env addr clock).trace = [Event.parseCall addr]) ∧
    ((∀ data, env.parseResult ≠ ParseOutcome.lnUrlPay data) →
      ((pay_gl_2_ln_address env addr clock).trace.all
        fun ev => !ev.isTimerStart && !ev.isLnurlPayCall) = true) := by
  refine ⟨?_, ?_, ?_⟩
  · rintro (h | ⟨e, h⟩) <;>
      simp [pay_gl_2_ln_address, h, test_err]
  · intro reason h
    simp [pay_gl_2_ln_address, h, test_err]
  · intro hnp
    cases h : env.parseResult with
    | lnUrlPay data => exact absurd h (hnp data)
    | lnUrlError reason =>
      simp [pay_gl_2_ln_address, h, Event.isTimerStart, Event.isLnurlPayCall]
    | otherInput =>
      simp [pay_gl_2_ln_address, h, Event.isTimerStart, Event.isLnurlPayCall]
    | parseFailure e =>
      simp [pay_gl_2_ln_address, h, Event.isTimerStart, Event.isLnurlPayCall]

/-- C4 witness: an unrelated input type yields the fixed parse-failure
result, without any timer or pay event. -/
theorem c4_parse_failure_witness :
    (pay_gl_2_ln_address demoWosEnv "user@wos.example" 0).result
      = (none, "Failed to parse LN Address") ∧
    (pay_gl_2_ln_address demoWosEnv "user@wos.example" 0).trace
      = [Event.parseCall "user@wos.example"] :=
  (c4_parse_failure_no_timer demoWosEnv "user@wos.example" 0).1 (Or.inl rfl)

/-- C5: in the address scenario, once parsing yields a payable LNURL-pay
descriptor, the pay outcome is classified exactly as: endpoint success gives
a success result; an endpoint-reported error or pay-protocol error with
reason `r` gives `(None, r)` verbatim; a transport/SDK error gives a failure
carrying that error's description. -/
theorem c5_pay_outcome_classification (env : LnAddrEnv) (addr : String) (clock : Nat)
    (data : LnUrlPayData) (hp : env.parseResult = ParseOutcome.lnUrlPay data) :
    (env.payResult = Except.ok LnUrlPayResult.endpointSuccess →
      (pay_gl_2_ln_address env addr clock).result =
        (some (Duration.as_secs ⟨env.payDelay⟩), "Ok")) ∧
    (∀ reason, env.payResult = Except.ok (LnUrlPayResult.endpointError reason) →
      (pay_gl_2_ln_address env addr clock).result = (none, reason)) ∧
    (∀ reason, env.payResult = Except.ok (LnUrlPayResult.payError reason) →
      (pay_gl_2_ln_address env addr clock).result = (none, reason)) ∧
    (∀ e, env.payResult = Except.error e →
      (pay_gl_2_ln_address env addr clock).result = (none, e)) := by
  refine ⟨?_, ?_, ?_, ?_⟩
  · intro h
    simp [pay_gl_2_ln_address, hp, h, test_ok, Nat.add_sub_cancel_left]
  · intro reason h
    simp [pay_gl_2_ln_address, hp, h, test_err]
  · intro reason h
    simp [pay_gl_2_ln_address, hp, h, test_err]
  · intro e h
    simp [pay_gl_2_ln_address, hp, h, test_err]

/-- C5 witness: the address parses and the pay call returns an endpoint
error with reason "invoice expired"; the result is
`(None, "invoice expired")`. -/
theorem c5_pay_outcome_witness :
    (pay_gl_2_ln_address
        ⟨0, ParseOutcome.lnUrlPay ⟨"cb"⟩, 0,
         Except.ok (LnUrlPayResult.endpointError "invoice expired")⟩
        "user@wos.example" 0).result = (none, "invoice expired") :=
  (c5_pay_outcome_classification
      ⟨0, ParseOutcome.lnUrlPay ⟨"cb"⟩, 0,
       Except.ok (LnUrlPayResult.endpointError "invoice expired")⟩
      "user@wos.example" 0 ⟨"cb"⟩ rfl).2.1 "invoice expired" rfl

/-- C3 counterexample: on a fully successful run all three scenarios execute,
yet the step trace of `main` contains no sync step at all — `main` never
explicitly drives either session to a synced state before the scenarios. -/
theorem c3_counterexample :
    MainStep.sync ∉ (runMain demoEnv).trace ∧
    MainStep.runGl2Wos ∈ (runMain demoEnv).trace ∧
    MainStep.connectSdk1 ∈ (runMain demoEnv).trace := by
  decide

/-- C3 (amended): `main` performs no explicit sync operation at any point;
before any scenario runs it connects both node sessions and retrieves their
node info, and on a run whose fatal operations all succeed those seven setup
steps precede the three scenario steps, in order. -/
theorem c3_no_explicit_sync (env : MainEnv) :
    MainStep.sync ∉ (runMain env).trace ∧
    (∀ config, fatalsOk env config →
      ∃ rest, (runMain env).trace =
        [MainStep.loadConfig,
         MainStep.createLogDir (logDirPath config env.startTs),
         MainStep.initLogging (logDirPath config env.startTs),
         MainStep.connectSdk1, MainStep.nodeInfo1,
         MainStep.connectSdk2, MainStep.nodeInfo2,
         MainStep.runGl2Wos, MainStep.runGl2Gl, MainStep.runGl2Tor] ++ rest) := by
  refine ⟨runMain_noSync env, ?_⟩
  intro config h
  rw [runMain_happy env config h]
  exact ⟨_, rfl⟩

/-- C3 witness: the amended statement instantiated on the demonstration
run. -/
theorem c3_no_explicit_sync_witness :
    MainStep.sync ∉ (runMain demoEnv).trace ∧
    ∃ rest, (runMain demoEnv).trace =
      [MainStep.loadConfig,
       MainStep.createLogDir (logDirPath demoConfig 100),
       MainStep.initLogging (logDirPath demoConfig 100),
       MainStep.connectSdk1, MainStep.nodeInfo1,
       MainStep.connectSdk2, MainStep.nodeInfo2,
       MainStep.runGl2Wos, MainStep.runGl2Gl, MainStep.runGl2Tor] ++ rest :=
  ⟨(c3_no_explicit_sync demoEnv).1,
   (c3_no_explicit_sync demoEnv).2 demoConfig demoEnv_fatalsOk⟩

/-- C6: on a run whose fatal operations all succeed, `main` hands the CSV
writer exactly one record of exactly 7 fields in the fixed order
`start_ts, addr1_elapsed, addr1_status, n2n_elapsed, n2n_status,
addr2_elapsed, addr2_status`; a failed scenario's elapsed field renders as
the empty string; the file is opened with append and create flags, and under
the file semantics (writes buffered until flush, append keeps old rows) any
prior contents end up followed by exactly the new row. -/
theorem c6_csv_row_contract (env : MainEnv) (config : PulseConfig) (h : fatalsOk env config) :
    (runMain env).outcome = Except.ok () ∧
    writtenRows (runMain env).trace =
      [mainRow env.startTs (scenarioTriple env config).1.result
        (scenarioTriple env config).2.1.result (scenarioTriple env config).2.2.result] ∧
    (mainRow env.startTs (scenarioTriple env config).1.result
        (scenarioTriple env config).2.1.result (scenarioTriple env config).2.2.result).length
      = 7 ∧
    optToField none = "" ∧
    MainStep.openCsv config.iterations_csv_full_path true true ∈ (runMain env).trace ∧
    (∀ prior, csvRun ⟨prior, []⟩ (runMain env).trace =
      ⟨prior ++ [mainRow env.startTs (scenarioTriple env config).1.result
        (scenarioTriple env config).2.1.result (scenarioTriple env config).2.2.result], []⟩) := by
  rw [runMain_happy env config h]
  refine ⟨rfl, ?_, rfl, rfl, ?_, ?_⟩
  · simp [writtenRows, happyTrace]
  · simp [happyTrace]
  · intro prior
    simp [csvRun, happyTrace, csvStep]

/-- C6 witness: the CSV contract instantiated on the demonstration run,
whose first scenario fails (empty elapsed field) and whose other two succeed. -/
theorem c6_csv_row_witness :
    writtenRows (runMain demoEnv).trace
      = [["100", "", "Failed to parse LN Address", "3", "Ok", "0", "Ok"]] ∧
    csvRun ⟨[["old"]], []⟩ (runMain demoEnv).trace
      = ⟨[["old"], ["100", "", "Failed to parse LN Address", "3", "Ok", "0", "Ok"]], []⟩ := by
  have h := c6_csv_row_contract demoEnv demoConfig demoEnv_fatalsOk
  refine ⟨?_, ?_⟩
  · rw [h.2.1]; decide
  · rw [h.2.2.2.2.2 [["old"]]]; decide

/-- A `main` environment whose configuration load fails. -/
def demoEnvBadConfig : MainEnv :=
  { demoEnv with configLoad := Except.error "missing key" }

/-- A `main` environment whose first disconnect call fails. -/
def demoEnvDiscFail : MainEnv :=
  { demoEnv with disconnect1 := Except.error "disconnect failed" }

/-- C7: errors are in two tiers.  Any scenario-internal failure is recorded
in the CSV row and the run still succeeds (the write-record step carries all
three results, whatever they are); whereas a configuration-load failure, a
mnemonic-parse failure, a working-directory-creation failure, a node
connection failure, and a CSV open or write failure each abort the run with
that error, leaving no row durable. -/
theorem c7_error_tiers (env : MainEnv) (config : PulseConfig) :
    (fatalsOk env config →
      (runMain env).outcome = Except.ok () ∧
      MainStep.writeRecord (mainRow env.startTs (scenarioTriple env config).1.result
        (scenarioTriple env config).2.1.result (scenarioTriple env config).2.2.result)
        ∈ (runMain env).trace) ∧
    (∀ e, env.configLoad = Except.error e →
      (runMain env).outcome = Except.error e ∧ writtenRows (runMain env).trace = []) ∧
    (∀ e, env.configLoad = Except.ok config → env.createLogDir = Except.ok () →
      env.initLogging = Except.ok () →
      (get_sdk env.sdk1 config.breez_api_key "working-dir-sdk-1" none
        (some config.sdk_1_mnemonic)).result = Except.error e →
      (runMain env).outcome = Except.error e ∧ writtenRows (runMain env).trace = []) ∧
    (∀ (sdkEnv : SdkEnv) (api wd : String) (ic : Option String) (s e : String),
      sdkEnv.from_str s = Except.error e →
      (get_sdk sdkEnv api wd ic (some s)).result = Except.error e) ∧
    (∀ (sdkEnv : SdkEnv) (api wd : String) (ic : Option String) (s : String)
       (m : Mnemonic) (e : String),
      sdkEnv.from_str s = Except.ok m → sdkEnv.create_dir_all wd = Except.error e →
      (get_sdk sdkEnv api wd ic (some s)).result = Except.error e) ∧
    (∀ (sdkEnv : SdkEnv) (api wd : String) (ic : Option String) (s : String)
       (m : Mnemonic) (e : String),
      sdkEnv.from_str s = Except.ok m → sdkEnv.create_dir_all wd = Except.ok () →
      sdkEnv.connect (sdkEnv.to_seed m "") = Except.error e →
      (get_sdk sdkEnv api wd ic (some s)).result = Except.error e) ∧
    (∀ e, setupOk env config → env.disconnect1 = Except.ok () →
      env.disconnect2 = Except.ok () → env.openCsv = Except.error e →
      (runMain env).outcome = Except.error e ∧
      (∀ prior, (csvRun ⟨prior, []⟩ (runMain env).trace).rows = prior)) ∧
    (∀ e, setupOk env config → env.disconnect1 = Except.ok () →
      env.disconnect2 = Except.ok () → env.openCsv = Except.ok () →
      env.writeRecord = Except.error e →
      (runMain env).outcome = Except.error e ∧
      (∀ prior, (csvRun ⟨prior, []⟩ (runMain env).trace).rows = prior)) := by
  refine ⟨?_, ?_, ?_, ?_, ?_, ?_, ?_, ?_⟩
  · intro h
    rw [runMain_happy env config h]
    exact ⟨rfl, by simp [happyTrace]⟩
  · intro e h
    exact ⟨by simp [runMain, bindStep, h], by simp [runMain, bindStep, h, writtenRows]⟩
  · intro e h1 h2 h3 hg
    exact ⟨by simp [runMain, bindStep, h1, h2, h3, hg],
           by simp [runMain, bindStep, h1, h2, h3, hg, writtenRows]⟩
  · intro sdkEnv api wd ic s e hfs
    simp [get_sdk, hfs]
  · intro sdkEnv api wd ic s m e hfs hcd
    simp [get_sdk, get_sdk_rest, hfs, hcd]
  · intro sdkEnv api wd ic s m e hfs hcd hcn
    simp [get_sdk, get_sdk_rest, hfs, hcd, hcn]
  · intro e hsetup hd1 hd2 ho
    obtain ⟨h1, h2, h3, ⟨s1, hs1⟩, h4, ⟨s2, hs2⟩, h5⟩ := hsetup
    refine ⟨by simp [runMain, bindStep, h1, h2, h3, hs1, h4, hs2, h5, hd1, hd2, ho], ?_⟩
    intro prior
    simp [runMain, bindStep, h1, h2, h3, hs1, h4, hs2, h5, hd1, hd2, ho, csvRun, csvStep]
  · intro e hsetup hd1 hd2 ho hw
    obtain ⟨h1, h2, h3, ⟨s1, hs1⟩, h4, ⟨s2, hs2⟩, h5⟩ := hsetup
    refine ⟨by simp [runMain, bindStep, h1, h2, h3, hs1, h4, hs2, h5, hd1, hd2, ho, hw], ?_⟩
    intro prior
    simp [runMain, bindStep, h1, h2, h3, hs1, h4, hs2, h5, hd1, hd2, ho, hw, csvRun, csvStep]

/-- C7 witness: a run with one failed scenario still succeeds and records
its row, while a configuration-load failure aborts the run with that error. -/
theorem c7_error_tiers_witness :
    (runMain demoEnv).outcome = Except.ok () ∧
    (runMain demoEnvBadConfig).outcome = Except.error "missing key" ∧
    writtenRows (runMain demoEnvBadConfig).trace = [] := by
  refine ⟨((c7_error_tiers demoEnv demoConfig).1 demoEnv_fatalsOk).1, ?_, ?_⟩
  · exact ((c7_error_tiers demoEnvBadConfig demoConfig).2.1 "missing key" rfl).1
  · exact ((c7_error_tiers demoEnvBadConfig demoConfig).2.1 "missing key" rfl).2

/-- C8: in `get_sdk`, an absent mnemonic leads to generating a fresh
12-word English-wordlist phrase which is printed, and the seed is derived
from the mnemonic with the empty passphrase (also when the mnemonic was
supplied); a malformed supplied mnemonic makes `get_sdk` fail with the parse
error, and through `main` that failure aborts the run. -/
theorem c8_get_sdk_mnemonic (env : SdkEnv) (api wd : String) (ic : Option String) :
    (∀ m, env.generate_in Language.english 12 = Except.ok m →
      (get_sdk env api wd ic none).trace.take 3 =
        [GStep.generateCall Language.english 12, GStep.printMnemonic m,
         GStep.deriveSeed m ""]) ∧
    (∀ s m, env.from_str s = Except.ok m →
      GStep.deriveSeed m "" ∈ (get_sdk env api wd ic (some s)).trace) ∧
    (∀ s e, env.from_str s = Except.error e →
      (get_sdk env api wd ic (some s)).result = Except.error e) ∧
    (∀ (menv : MainEnv) (config : PulseConfig) (e : String),
      menv.configLoad = Except.ok config → menv.createLogDir = Except.ok () →
      menv.initLogging = Except.ok () →
      menv.sdk1.from_str config.sdk_1_mnemonic = Except.error e →
      (runMain menv).outcome = Except.error e) := by
  refine ⟨?_, ?_, ?_, ?_⟩
  · intro m hg
    cases hcd : env.create_dir_all wd <;> cases hcn : env.connect (env.to_seed m "") <;>
      simp [get_sdk, get_sdk_rest, hg, hcd, hcn]
  · intro s m hfs
    cases hcd : env.create_dir_all wd <;> cases hcn : env.connect (env.to_seed m "") <;>
      simp [get_sdk, get_sdk_rest, hfs, hcd, hcn]
  · intro s e hfs
    simp [get_sdk, hfs]
  · intro menv config e h1 h2 h3 hfs
    have hg : (get_sdk menv.sdk1 config.breez_api_key "working-dir-sdk-1" none
        (some config.sdk_1_mnemonic)).result = Except.error e := by
      simp [get_sdk, hfs]
    simp [runMain, bindStep, h1, h2, h3, hg]

/-- C8 witness: calling `get_sdk` without a mnemonic generates and prints
the 12-word phrase, then derives the seed with the empty passphrase. -/
theorem c8_get_sdk_witness :
    (get_sdk demoSdkEnv "demo-api-key" "working-dir-sdk-1" none none).trace.take 3 =
      [GStep.generateCall Language.english 12, GStep.printMnemonic demoMnemonic,
       GStep.deriveSeed demoMnemonic ""] :=
  (c8_get_sdk_mnemonic demoSdkEnv "demo-api-key" "working-dir-sdk-1" none).1
    demoMnemonic rfl

/-- C10: after all three scenarios have run, a failure of either disconnect
call aborts `main` with that error before the CSV file is even opened: the
trace contains the three scenario steps but no open or write step, so the
durable CSV contents are unchanged and the run's results are lost. -/
theorem c10_disconnect_failure_loses_row (env : MainEnv) (config : PulseConfig)
    (hsetup : setupOk env config) :
    (∀ e, env.disconnect1 = Except.error e →
      (runMain env).outcome = Except.error e ∧
      MainStep.runGl2Wos ∈ (runMain env).trace ∧
      MainStep.runGl2Gl ∈ (runMain env).trace ∧
      MainStep.runGl2Tor ∈ (runMain env).trace ∧
      (∀ p a c, MainStep.openCsv p a c ∉ (runMain env).trace) ∧
      (∀ r, MainStep.writeRecord r ∉ (runMain env).trace) ∧
      (∀ prior, (csvRun ⟨prior, []⟩ (runMain env).trace).rows = prior)) ∧
    (∀ e, env.disconnect1 = Except.ok () → env.disconnect2 = Except.error e →
      (runMain env).outcome = Except.error e ∧
      MainStep.runGl2Wos ∈ (runMain env).trace ∧
      MainStep.runGl2Gl ∈ (runMain env).trace ∧
      MainStep.runGl2Tor ∈ (runMain env).trace ∧
      (∀ p a c, MainStep.openCsv p a c ∉ (runMain env).trace) ∧
      (∀ r, MainStep.writeRecord r ∉ (runMain env).trace) ∧
      (∀ prior, (csvRun ⟨prior, []⟩ (runMain env).trace).rows = prior)) := by
  obtain ⟨h1, h2, h3, ⟨s1, hs1⟩, h4, ⟨s2, hs2⟩, h5⟩ := hsetup
  constructor
  · intro e hd1
    have htr : runMain env =
        ⟨[MainStep.loadConfig,
          MainStep.createLogDir (logDirPath config env.startTs),
          MainStep.initLogging (logDirPath config env.startTs),
          MainStep.connectSdk1, MainStep.nodeInfo1,
          MainStep.connectSdk2, MainStep.nodeInfo2,
          MainStep.runGl2Wos, MainStep.runGl2Gl, MainStep.runGl2Tor,
          MainStep.disconnect1], Except.error e⟩ := by
      simp [runMain, bindStep, h1, h2, h3, hs1, h4, hs2, h5, hd1]
    rw [htr]
    refine ⟨rfl, by simp, by simp, by simp, fun p a c => by simp, fun r => by simp, ?_⟩
    intro prior
    simp [csvRun, csvStep]
  · intro e hd1 hd2
    have htr : runMain env =
        ⟨[MainStep.loadConfig,
          MainStep.createLogDir (logDirPath config env.startTs),
          MainStep.initLogging (logDirPath config env.startTs),
          MainStep.connectSdk1, MainStep.nodeInfo1,
          MainStep.connectSdk2, MainStep.nodeInfo2,
          MainStep.runGl2Wos, MainStep.runGl2Gl, MainStep.runGl2Tor,
          MainStep.disconnect1, MainStep.disconnect2], Except.error e⟩ := by
      simp [runMain, bindStep, h1, h2, h3, hs1, h4, hs2, h5, hd1, hd2]
    rw [htr]
    refine ⟨rfl, by simp, by simp, by simp, fun p a c => by simp, fun r => by simp, ?_⟩
    intro prior
    simp [csvRun, csvStep]

/-- C10 witness: with a failing first disconnect, the run aborts with that
error and pre-existing CSV rows are all that remain. -/
theorem c10_disconnect_witness :
    (runMain demoEnvDiscFail).outcome = Except.error "disconnect failed" ∧
    (csvRun ⟨[["old"]], []⟩ (runMain demoEnvDiscFail).trace).rows = [["old"]] := by
  have h := (c10_disconnect_failure_loses_row demoEnvDiscFail demoConfig
      ⟨rfl, rfl, rfl, ⟨⟨7⟩, rfl⟩, rfl, ⟨⟨7⟩, rfl⟩, rfl⟩).1 "disconnect failed" rfl
  exact ⟨h.1, h.2.2.2.2.2.2 [["old"]]⟩

end SdkPulse
